import Mathlib

/-!
Shallow embedding of the eco-project admin dashboard (Users view, Map view,
Logs view) together with the database schema defaults, and proofs of the
specification's testable properties about status transitions, client-side
filtering, log fetching, error handling and the label/color lookup tables.

Timestamps are modelled as natural numbers (a monotone clock); strings keep
their JavaScript contents, with `toLowerCase` modelled per character by
`Char.toLower` and `String.prototype.includes` by contiguous-sublist
containment on the character lists.
-/

/-- The closed status enum of `trash_locations.status`
(CHECK constraint in the schema migration). -/
def statusValues : List String := ["reported", "in_progress", "cleaned", "rejected"]

/-- The closed trash-type enum of `trash_locations.trash_type`. -/
def trashTypeValues : List String :=
  ["plastic", "metal", "glass", "organic", "electronic", "mixed", "other"]

/-- The closed priority enum of `trash_locations.priority`. -/
def priorityValues : List String := ["low", "medium", "high"]

/-- The closed log-level enum of `system_logs.log_level`. -/
def logLevelValues : List String := ["info", "warning", "error", "critical"]

/-- Row of the `trash_locations` table (database.types / schema migration). -/
structure TrashLocation where
  id : String
  user_id : Option String
  latitude : Int
  longitude : Int
  description : String
  trash_type : String
  status : String
  priority : String
  image_url : Option String
  created_at : Nat
  updated_at : Nat
  cleaned_at : Option Nat
deriving DecidableEq

/-- Row of the `project_users` table. -/
structure ProjectUser where
  id : String
  email : String
  full_name : String
  phone : Option String
  is_active : Bool
  reports_count : Nat
  created_at : Nat
  updated_at : Nat
deriving DecidableEq

/-- Row of the `system_logs` table (`details` kept as an opaque payload). -/
structure SystemLog where
  id : String
  log_level : String
  action : String
  user_id : Option String
  entity_type : Option String
  entity_id : Option String
  details : String
  ip_address : Option String
  created_at : Nat
deriving DecidableEq

/-- A freshly inserted `trash_locations` row: the schema defaults status to
`reported`, priority to `medium`, stamps `created_at`/`updated_at` with `now()`
and leaves `cleaned_at` NULL. -/
def mkFreshLocation (id : String) (uid : Option String) (lat lng : Int)
    (descr ttype : String) (img : Option String) (now : Nat) : TrashLocation :=
  { id := id, user_id := uid, latitude := lat, longitude := lng,
    description := descr, trash_type := ttype, status := "reported",
    priority := "medium", image_url := img, created_at := now,
    updated_at := now, cleaned_at := none }

/-- `MapView.handleStatusChange`: builds an update object with `status` and
`updated_at`, adds `cleaned_at` exactly when the target status is `cleaned`,
and applies it to the row selected by id. -/
def handleStatusChange (loc : TrashLocation) (newStatus : String) (now : Nat) :
    TrashLocation :=
  if newStatus = "cleaned" then
    { loc with status := newStatus, updated_at := now, cleaned_at := some now }
  else
    { loc with status := newStatus, updated_at := now }

/-- `UsersView.handleToggleActive`: flips the boolean and stamps the update
time. -/
def handleToggleActive (u : ProjectUser) (now : Nat) : ProjectUser :=
  { u with is_active := !u.is_active, updated_at := now }

/-- The transition buttons rendered by the Map view's detail panel for a
selected location: one button per target in `in_progress`, `cleaned`,
`rejected`, each shown only when it differs from the current status
(there is no button targeting `reported`). -/
def statusButtons (current : String) : List String :=
  (if current ≠ "in_progress" then ["in_progress"] else []) ++
  (if current ≠ "cleaned" then ["cleaned"] else []) ++
  (if current ≠ "rejected" then ["rejected"] else [])

/-- `MapView.getMarkerPreset`: maps a status to a Yandex-maps marker preset,
defaulting to the red icon. -/
def getMarkerPreset (status : String) : String :=
  if status = "reported" then "islands#redIcon"
  else if status = "in_progress" then "islands#blueIcon"
  else if status = "cleaned" then "islands#greenIcon"
  else if status = "rejected" then "islands#grayIcon"
  else "islands#redIcon"

/-- `MapView.getTrashTypeLabel`: Russian label table with the raw token as
fallback. -/
def getTrashTypeLabel (type_ : String) : String :=
  if type_ = "plastic" then "Пластик"
  else if type_ = "metal" then "Металл"
  else if type_ = "glass" then "Стекло"
  else if type_ = "organic" then "Органика"
  else if type_ = "electronic" then "Электроника"
  else if type_ = "mixed" then "Смешанный"
  else if type_ = "other" then "Другое"
  else type_

/-- `MapView.getStatusLabel`: Russian label table with the raw token as
fallback. -/
def getStatusLabel (status : String) : String :=
  if status = "reported" then "Сообщено"
  else if status = "in_progress" then "В работе"
  else if status = "cleaned" then "Очищено"
  else if status = "rejected" then "Отклонено"
  else status

/-- `MapView.getPriorityLabel`: Russian label table with the raw token as
fallback. -/
def getPriorityLabel (priority : String) : String :=
  if priority = "high" then "Высокий"
  else if priority = "medium" then "Средний"
  else if priority = "low" then "Низкий"
  else priority

/-- `MapView.getStatusBadgeColor`: CSS badge classes keyed by status, with a
fixed gray default. -/
def getStatusBadgeColor (status : String) : String :=
  if status = "reported" then "bg-red-100 text-red-800"
  else if status = "in_progress" then "bg-blue-100 text-blue-800"
  else if status = "cleaned" then "bg-green-100 text-green-800"
  else if status = "rejected" then "bg-gray-100 text-gray-800"
  else "bg-gray-100 text-gray-800"

/-- `MapView.getPriorityBadgeColor`: CSS badge classes keyed by priority, with
a fixed gray default. -/
def getPriorityBadgeColor (priority : String) : String :=
  if priority = "high" then "bg-red-100 text-red-800"
  else if priority = "medium" then "bg-yellow-100 text-yellow-800"
  else if priority = "low" then "bg-green-100 text-green-800"
  else "bg-gray-100 text-gray-800"

/-- Per-character embedding of JavaScript `toLowerCase` on a string's
character list. -/
def lowerData (s : String) : List Char := s.data.map Char.toLower

/-- Embedding of `a.toLowerCase().includes(b.toLowerCase())`: the lowered
needle is a contiguous sublist of the lowered haystack. -/
def ciIncludes (haystack needle : String) : Bool :=
  decide (lowerData needle <:+: lowerData haystack)

/-- `UsersView.filteredUsers` row predicate: case-insensitive substring match
of the search query against `full_name`, `email`, or (when present) `phone`;
a null `phone` contributes `false` (the optional-chaining call yields
`undefined`). -/
def userMatches (q : String) (u : ProjectUser) : Bool :=
  ciIncludes u.full_name q || ciIncludes u.email q ||
    (match u.phone with
     | some p => ciIncludes p q
     | none => false)

/-- `UsersView.filteredUsers`: the display subset derived from the in-memory
row set. -/
def filteredUsers (q : String) (users : List ProjectUser) : List ProjectUser :=
  users.filter (userMatches q)

/-- `LogsView.filteredLogs` row predicate: case-insensitive substring match of
the search query against `action` or (when present) `entity_type`. -/
def logMatches (q : String) (l : SystemLog) : Bool :=
  ciIncludes l.action q ||
    (match l.entity_type with
     | some e => ciIncludes e q
     | none => false)

/-- `LogsView.filteredLogs`: the display subset derived from the in-memory log
set. -/
def filteredLogs (q : String) (logs : List SystemLog) : List SystemLog :=
  logs.filter (logMatches q)

/-- Insert a log into a list sorted by `created_at` descending. -/
def insertByCreatedDesc (r : SystemLog) : List SystemLog → List SystemLog
  | [] => [r]
  | q :: qs =>
    if q.created_at ≤ r.created_at then r :: q :: qs
    else q :: insertByCreatedDesc r qs

/-- Sort logs by `created_at` descending (the `order('created_at',
ascending: false)` clause of the fetch). -/
def sortByCreatedDesc : List SystemLog → List SystemLog
  | [] => []
  | r :: rs => insertByCreatedDesc r (sortByCreatedDesc rs)

/-- `LogsView.fetchLogs` against a table state: the backend applies the
optional `log_level` equality filter, orders by `created_at` descending, and
caps the result at 100 rows. -/
def fetchLogs (table : List SystemLog) (filterLevel : Option String) :
    List SystemLog :=
  let filtered :=
    match filterLevel with
    | some lv => table.filter (fun r => r.log_level = lv)
    | none => table
  (sortByCreatedDesc filtered).take 100

/-- Local state of the Users view, including the diagnostic channel
(`console.error`) as a list of messages. The edit form mirrors the
`Partial<ProjectUser>` state: the selected row plus the three editable text
inputs (absent until the user starts editing). -/
structure UsersViewState where
  users : List ProjectUser
  loading : Bool
  editingUser : Option ProjectUser
  editFormFullName : Option String
  editFormEmail : Option String
  editFormPhone : Option String
  showAddForm : Bool
  newUserEmail : String
  newUserFullName : String
  newUserPhone : String
  diag : List String
deriving DecidableEq

/-- The Users view's state on mount (`useState` initial values). -/
def initialUsersViewState : UsersViewState :=
  { users := [], loading := true, editingUser := none,
    editFormFullName := none, editFormEmail := none, editFormPhone := none,
    showAddForm := false, newUserEmail := "", newUserFullName := "",
    newUserPhone := "", diag := [] }

/-- Net state effect of one `UsersView.fetchUsers` call, given the backend
result: on success the rows are replaced; on failure the error is logged to
the diagnostic channel and the rows are left unchanged; either way the loading
flag ends false. -/
def fetchUsersRun (st : UsersViewState) (result : Except String (List ProjectUser)) :
    UsersViewState :=
  match result with
  | .ok data => { st with users := data, loading := false }
  | .error e => { st with loading := false, diag := st.diag ++ ["Error fetching users: " ++ e] }

/-- Net state effect of `UsersView.handleAddUser`, given the insert result and
the result of the follow-up re-fetch: on insert failure the error is logged
and nothing else changes (the add form stays open with its input intact); on
success the list is re-fetched, the form is closed and reset. -/
def handleAddUserRun (st : UsersViewState) (insertResult : Except String Unit)
    (refetch : Except String (List ProjectUser)) : UsersViewState :=
  match insertResult with
  | .ok _ =>
    let st1 := fetchUsersRun st refetch
    { st1 with showAddForm := false, newUserEmail := "", newUserFullName := "",
               newUserPhone := "" }
  | .error e => { st with diag := st.diag ++ ["Error adding user: " ++ e] }

/-- Net state effect of `UsersView.handleToggleActive`, given the update result
and the follow-up re-fetch result: on update failure the error is logged and
nothing else changes; on success the list is re-fetched. -/
def handleToggleActiveRun (st : UsersViewState) (updateResult : Except String Unit)
    (refetch : Except String (List ProjectUser)) : UsersViewState :=
  match updateResult with
  | .ok _ => fetchUsersRun st refetch
  | .error e => { st with diag := st.diag ++ ["Error toggling user status: " ++ e] }

/-- Net state effect of `UsersView.handleSaveEdit`, given the update result
and the follow-up re-fetch result: with no row being edited it returns early;
on update failure the error is logged and nothing else changes (the edit form
stays open with its input intact); on success the list is re-fetched, the
editing row is cleared and the form reset. -/
def handleSaveEditRun (st : UsersViewState) (updateResult : Except String Unit)
    (refetch : Except String (List ProjectUser)) : UsersViewState :=
  match st.editingUser with
  | none => st
  | some _ =>
    match updateResult with
    | .ok _ =>
      let st1 := fetchUsersRun st refetch
      { st1 with editingUser := none, editFormFullName := none,
                 editFormEmail := none, editFormPhone := none }
    | .error e => { st with diag := st.diag ++ ["Error updating user: " ++ e] }

/-- Local state of the Map view, with the diagnostic channel as a list of
messages. -/
structure MapViewState where
  locations : List TrashLocation
  loading : Bool
  statusFilter : Option String
  selectedLocation : Option TrashLocation
  diag : List String
deriving DecidableEq

/-- Net state effect of one `MapView.fetchLocations` call, given the backend
result: on success the rows are replaced; on failure the error is logged and
the rows are left unchanged; either way the loading flag ends false. -/
def fetchLocationsRun (st : MapViewState) (result : Except String (List TrashLocation)) :
    MapViewState :=
  match result with
  | .ok data => { st with locations := data, loading := false }
  | .error e => { st with loading := false, diag := st.diag ++ ["Error fetching locations: " ++ e] }

/-- Net state effect of `MapView.handleStatusChange` on the view state, given
the update result and the follow-up re-fetch result: on update failure the
error is logged and nothing else changes (the detail panel stays open); on
success the list is re-fetched and the selection is cleared. -/
def handleStatusChangeRun (st : MapViewState) (updateResult : Except String Unit)
    (refetch : Except String (List TrashLocation)) : MapViewState :=
  match updateResult with
  | .ok _ => { fetchLocationsRun st refetch with selectedLocation := none }
  | .error e => { st with diag := st.diag ++ ["Error updating status: " ++ e] }

/-- The Map view's state on mount (`useState` initial values; the status
filter starts at `all`, modelled as `none`). -/
def initialMapViewState : MapViewState :=
  { locations := [], loading := true, statusFilter := none,
    selectedLocation := none, diag := [] }

/-- Local state of the Logs view, with the diagnostic channel as a list of
messages (the level filter starts at `all`, modelled as `none`). -/
structure LogsViewState where
  logs : List SystemLog
  loading : Bool
  filterLevel : Option String
  searchQuery : String
  diag : List String
deriving DecidableEq

/-- The Logs view's state on mount (`useState` initial values). -/
def initialLogsViewState : LogsViewState :=
  { logs := [], loading := true, filterLevel := none, searchQuery := "",
    diag := [] }

/-- Net state effect of one `LogsView.fetchLogs` call, given the backend
result: on success the rows are replaced; on failure the error is logged and
the rows are left unchanged; either way the loading flag ends false. -/
def fetchLogsRun (st : LogsViewState) (result : Except String (List SystemLog)) :
    LogsViewState :=
  match result with
  | .ok data => { st with logs := data, loading := false }
  | .error e => { st with loading := false, diag := st.diag ++ ["Error fetching logs: " ++ e] }

/-- Example `project_users` row (seed data of the schema migration). -/
def exUser : ProjectUser :=
  { id := "u1", email := "user1@example.com", full_name := "Иван Петров",
    phone := some "+7 999 123-45-67", is_active := true, reports_count := 5,
    created_at := 1, updated_at := 1 }

/-- Example `trash_locations` row that has already been cleaned. -/
def exCleanedLoc : TrashLocation :=
  { id := "loc1", user_id := some "u1", latitude := 55, longitude := 37,
    description := "test pile", trash_type := "plastic", status := "cleaned",
    priority := "medium", image_url := none, created_at := 1, updated_at := 2,
    cleaned_at := some 3 }

/-- Example `system_logs` row. -/
def exLog : SystemLog :=
  { id := "l1", log_level := "info", action := "user_login",
    user_id := some "u1", entity_type := some "admin_users", entity_id := none,
    details := "{}", ip_address := none, created_at := 4 }

/-- Users view state whose in-memory list is non-empty. -/
def exUsersState : UsersViewState :=
  { users := [exUser], loading := true, editingUser := none,
    editFormFullName := none, editFormEmail := none, editFormPhone := none,
    showAddForm := false, newUserEmail := "", newUserFullName := "",
    newUserPhone := "", diag := [] }

/-- Users view state in which the example user is being edited. -/
def exEditingState : UsersViewState :=
  { exUsersState with
    editingUser := some exUser,
    editFormFullName := some "Иван Петров",
    editFormEmail := some "user1@example.com",
    editFormPhone := some "+7 999 123-45-67" }

theorem mem_insertByCreatedDesc (a r : SystemLog) (l : List SystemLog) :
    a ∈ insertByCreatedDesc r l ↔ a = r ∨ a ∈ l := by
  induction l with
  | nil => simp [insertByCreatedDesc]
  | cons q qs ih =>
    by_cases h : q.created_at ≤ r.created_at
    · simp [insertByCreatedDesc, h]
    · simp [insertByCreatedDesc, h, ih]
      tauto

theorem length_insertByCreatedDesc (r : SystemLog) (l : List SystemLog) :
    (insertByCreatedDesc r l).length = l.length + 1 := by
  induction l with
  | nil => simp [insertByCreatedDesc]
  | cons q qs ih =>
    by_cases h : q.created_at ≤ r.created_at
    · simp [insertByCreatedDesc, h]
    · simp [insertByCreatedDesc, h, ih]

theorem mem_sortByCreatedDesc (a : SystemLog) (l : List SystemLog) :
    a ∈ sortByCreatedDesc l ↔ a ∈ l := by
  induction l with
  | nil => simp [sortByCreatedDesc]
  | cons r rs ih =>
    simp [sortByCreatedDesc, mem_insertByCreatedDesc, ih]

theorem length_sortByCreatedDesc (l : List SystemLog) :
    (sortByCreatedDesc l).length = l.length := by
  induction l with
  | nil => rfl
  | cons r rs ih =>
    simp [sortByCreatedDesc, length_insertByCreatedDesc, ih]

theorem ciIncludes_empty_needle (s : String) : ciIncludes s "" = true :=
  decide_eq_true ⟨[], lowerData s, by simp [lowerData]⟩

/-- C1: the claim says the detail panel offers every status other than the
current one; but at current status `in_progress` the other status `reported`
is not offered (there is no button targeting `reported`). -/
theorem statusButtons_no_reported_target :
    ("reported" : String) ≠ "in_progress" ∧
      "reported" ∉ statusButtons "in_progress" := by decide

/-- C1 (amended): for current and target drawn from the closed status enum,
the detail panel offers a button for the target exactly when it differs from
the current status and is not `reported`; in particular the current status is
never offered, all three non-`reported` targets are offered from `reported`,
and only two targets are offered from each other state. -/
theorem statusButtons_spec :
    ∀ c ∈ statusValues, ∀ t ∈ statusValues,
      (t ∈ statusButtons c ↔ t ≠ c ∧ t ≠ "reported") := by decide

/-- Witness for `statusButtons_spec` at current `reported`, target `cleaned`. -/
theorem statusButtons_spec_witness :
    "cleaned" ∈ statusButtons "reported" :=
  (statusButtons_spec "reported" (by decide) "cleaned" (by decide)).mpr
    (by decide)

/-- C2: a status transition sets `status` to the target and `updated_at` to
the current time, sets `cleaned_at` exactly when the target is `cleaned`, and
leaves every other field of the record unchanged. -/
theorem handleStatusChange_frame (loc : TrashLocation) (s : String) (t : Nat) :
    (handleStatusChange loc s t).id = loc.id ∧
    (handleStatusChange loc s t).user_id = loc.user_id ∧
    (handleStatusChange loc s t).latitude = loc.latitude ∧
    (handleStatusChange loc s t).longitude = loc.longitude ∧
    (handleStatusChange loc s t).description = loc.description ∧
    (handleStatusChange loc s t).trash_type = loc.trash_type ∧
    (handleStatusChange loc s t).priority = loc.priority ∧
    (handleStatusChange loc s t).image_url = loc.image_url ∧
    (handleStatusChange loc s t).created_at = loc.created_at ∧
    (handleStatusChange loc s t).status = s ∧
    (handleStatusChange loc s t).updated_at = t ∧
    (handleStatusChange loc s t).cleaned_at =
      (if s = "cleaned" then some t else loc.cleaned_at) := by
  unfold handleStatusChange
  by_cases h : s = "cleaned" <;> simp [h]

/-- C3: for every record, a transition stamps `cleaned_at` to the current time
iff the target is `cleaned` (otherwise it is left as it was); a freshly
created record has `cleaned_at` absent; and once `cleaned_at` is set, no
transition (e.g. `cleaned` to `rejected`) clears it. -/
theorem cleanedAt_lifecycle (loc : TrashLocation) (s : String) (t : Nat) :
    ((handleStatusChange loc s t).cleaned_at =
      if s = "cleaned" then some t else loc.cleaned_at) ∧
    (∀ id uid lat lng d ty img now,
      (mkFreshLocation id uid lat lng d ty img now).cleaned_at = none) ∧
    (loc.cleaned_at ≠ none → (handleStatusChange loc s t).cleaned_at ≠ none) := by
  refine ⟨?_, fun id uid lat lng d ty img now => rfl, ?_⟩
  · unfold handleStatusChange
    by_cases h : s = "cleaned" <;> simp [h]
  · intro hset
    unfold handleStatusChange
    by_cases h : s = "cleaned" <;> simp [h, hset]

/-- Witness for `cleanedAt_lifecycle`: moving the example cleaned record to
`rejected` leaves `cleaned_at` set. -/
theorem cleanedAt_lifecycle_witness :
    (handleStatusChange exCleanedLoc "rejected" 5).cleaned_at ≠ none :=
  (cleanedAt_lifecycle exCleanedLoc "rejected" 5).2.2 (by decide)

/-- C8: toggling a ProjectUser's active flag twice returns `is_active` to its
original value, and under a strictly increasing clock `updated_at` strictly
increases on each toggle. -/
theorem handleToggleActive_twice (u : ProjectUser) (t1 t2 : Nat)
    (h1 : u.updated_at < t1) (h2 : t1 < t2) :
    (handleToggleActive (handleToggleActive u t1) t2).is_active = u.is_active ∧
    u.updated_at < (handleToggleActive u t1).updated_at ∧
    (handleToggleActive u t1).updated_at <
      (handleToggleActive (handleToggleActive u t1) t2).updated_at := by
  refine ⟨?_, ?_, ?_⟩ <;> simp [handleToggleActive]
  · exact h1
  · exact h2

/-- Witness for `handleToggleActive_twice` on the example user with clock
ticks 2 and 3. -/
theorem handleToggleActive_twice_witness :
    (handleToggleActive (handleToggleActive exUser 2) 3).is_active =
      exUser.is_active :=
  (handleToggleActive_twice exUser 2 3 (by decide) (by decide)).1

theorem userMatches_iff (q : String) (u : ProjectUser) :
    userMatches q u = true ↔
      ciIncludes u.full_name q = true ∨ ciIncludes u.email q = true ∨
        ∃ p, u.phone = some p ∧ ciIncludes p q = true := by
  unfold userMatches
  cases hp : u.phone <;> simp [hp, or_assoc]

theorem logMatches_iff (q : String) (l : SystemLog) :
    logMatches q l = true ↔
      ciIncludes l.action q = true ∨
        ∃ e, l.entity_type = some e ∧ ciIncludes e q = true := by
  unfold logMatches
  cases he : l.entity_type <;> simp [he]

/-- C4: a row appears in the derived display subset iff it is in the in-memory
set and the case-insensitive substring predicate holds on at least one
designated field (Users: full name, email, phone; Logs: action label, entity
type). -/
theorem filtered_mem_iff (q : String) (users : List ProjectUser)
    (u : ProjectUser) (logs : List SystemLog) (l : SystemLog) :
    (u ∈ filteredUsers q users ↔
      u ∈ users ∧ (ciIncludes u.full_name q = true ∨
        ciIncludes u.email q = true ∨
        ∃ p, u.phone = some p ∧ ciIncludes p q = true)) ∧
    (l ∈ filteredLogs q logs ↔
      l ∈ logs ∧ (ciIncludes l.action q = true ∨
        ∃ e, l.entity_type = some e ∧ ciIncludes e q = true)) := by
  constructor
  · rw [filteredUsers, List.mem_filter, userMatches_iff]
  · rw [filteredLogs, List.mem_filter, logMatches_iff]

/-- C5: for every underlying table state, the Logs fetch returns at most 100
entries for any filter; every entry returned under a level filter has that
level; and filtering on `critical` over a table with no critical rows yields
the empty list. -/
theorem fetchLogs_spec (table : List SystemLog) (f : Option String)
    (lv : String) (r : SystemLog) :
    (fetchLogs table f).length ≤ 100 ∧
    (r ∈ fetchLogs table (some lv) → r.log_level = lv) ∧
    ((∀ q ∈ table, q.log_level ≠ "critical") →
      fetchLogs table (some "critical") = []) := by
  refine ⟨?_, ?_, ?_⟩
  · unfold fetchLogs
    cases f <;> simp [List.length_take]
  · intro hr
    unfold fetchLogs at hr
    simp only at hr
    have h1 := List.take_subset 100 _ hr
    rw [mem_sortByCreatedDesc, List.mem_filter] at h1
    exact of_decide_eq_true h1.2
  · intro hnc
    unfold fetchLogs
    simp only
    have hnil : table.filter (fun x => decide (x.log_level = "critical")) = [] := by
      rw [List.filter_eq_nil_iff]
      intro a ha
      simpa using hnc a ha
    rw [hnil]
    rfl

/-- Witness for `fetchLogs_spec` on a one-row table holding only an `info`
log. -/
theorem fetchLogs_spec_witness :
    exLog.log_level = "info" ∧ fetchLogs [exLog] (some "critical") = [] := by
  have h := fetchLogs_spec [exLog] none "info" exLog
  exact ⟨h.2.1 (by decide), h.2.2 (by decide)⟩

/-- C6: every backend failure, in each of the three views, is caught and
appended to the diagnostic channel; a failed fetch (users, locations, logs)
leaves the prior rows unchanged and exits the loading state, and a failed
mutation (add user, toggle active, save edit, status change) changes nothing
besides the diagnostic channel — the add form stays open with its input
intact, the edit form stays open on its row with its input intact, and the
detail-panel selection is kept. -/
theorem backend_failure_swallowed (stU : UsersViewState) (stM : MapViewState)
    (stL : LogsViewState) (e : String)
    (r1 : Except String (List ProjectUser))
    (r2 : Except String (List TrashLocation)) :
    ((fetchUsersRun stU (Except.error e)).users = stU.users ∧
     (fetchUsersRun stU (Except.error e)).loading = false ∧
     (fetchUsersRun stU (Except.error e)).diag =
       stU.diag ++ ["Error fetching users: " ++ e]) ∧
    ((fetchLocationsRun stM (Except.error e)).locations = stM.locations ∧
     (fetchLocationsRun stM (Except.error e)).loading = false ∧
     (fetchLocationsRun stM (Except.error e)).diag =
       stM.diag ++ ["Error fetching locations: " ++ e]) ∧
    ((fetchLogsRun stL (Except.error e)).logs = stL.logs ∧
     (fetchLogsRun stL (Except.error e)).loading = false ∧
     (fetchLogsRun stL (Except.error e)).diag =
       stL.diag ++ ["Error fetching logs: " ++ e]) ∧
    (handleAddUserRun stU (Except.error e) r1 =
      { stU with diag := stU.diag ++ ["Error adding user: " ++ e] }) ∧
    (handleToggleActiveRun stU (Except.error e) r1 =
      { stU with diag := stU.diag ++ ["Error toggling user status: " ++ e] }) ∧
    (handleStatusChangeRun stM (Except.error e) r2 =
      { stM with diag := stM.diag ++ ["Error updating status: " ++ e] }) ∧
    ((handleSaveEditRun stU (Except.error e) r1).users = stU.users ∧
     (handleSaveEditRun stU (Except.error e) r1).editingUser = stU.editingUser ∧
     (handleSaveEditRun stU (Except.error e) r1).editFormFullName =
       stU.editFormFullName ∧
     (handleSaveEditRun stU (Except.error e) r1).editFormEmail =
       stU.editFormEmail ∧
     (handleSaveEditRun stU (Except.error e) r1).editFormPhone =
       stU.editFormPhone ∧
     (stU.editingUser ≠ none →
       handleSaveEditRun stU (Except.error e) r1 =
         { stU with diag := stU.diag ++ ["Error updating user: " ++ e] })) := by
  refine ⟨⟨rfl, rfl, rfl⟩, ⟨rfl, rfl, rfl⟩, ⟨rfl, rfl, rfl⟩, rfl, rfl, rfl, ?_⟩
  cases h : stU.editingUser with
  | none => simp [handleSaveEditRun, h]
  | some u => simp [handleSaveEditRun, h]

/-- Witness for `backend_failure_swallowed`: a failed save of the edit form on
a state editing the example user logs the error and changes nothing else. -/
theorem backend_failure_swallowed_witness :
    handleSaveEditRun exEditingState (Except.error "network") (Except.ok []) =
      { exEditingState with
        diag := exEditingState.diag ++ ["Error updating user: network"] } :=
  (backend_failure_swallowed exEditingState initialMapViewState
      initialLogsViewState "network" (Except.ok [])
      (Except.ok [])).2.2.2.2.2.2.2.2.2.2.2 (by decide)

/-- C7: the claim says a fetch failure makes the displayed list empty; but on
a state already holding a row, a failed fetch keeps that row, so the list is
not empty. -/
theorem fetchUsers_failure_rows_kept :
    (fetchUsersRun exUsersState (Except.error "network")).users = [exUser] ∧
      ([exUser] : List ProjectUser) ≠ [] :=
  ⟨rfl, by simp⟩

/-- C7 (amended): in each of the three entity list views, a fetch failure
leaves the prior in-memory rows unchanged and exits the loading state; the
displayed list is therefore empty only when the prior rows were already empty,
as on the initial mount state of each view. -/
theorem fetch_failure_keeps_prior_rows (stU : UsersViewState)
    (stM : MapViewState) (stL : LogsViewState) (e : String) :
    (fetchUsersRun stU (Except.error e)).users = stU.users ∧
    (fetchUsersRun stU (Except.error e)).loading = false ∧
    (fetchLocationsRun stM (Except.error e)).locations = stM.locations ∧
    (fetchLocationsRun stM (Except.error e)).loading = false ∧
    (fetchLogsRun stL (Except.error e)).logs = stL.logs ∧
    (fetchLogsRun stL (Except.error e)).loading = false ∧
    (fetchUsersRun initialUsersViewState (Except.error e)).users = [] ∧
    (fetchLocationsRun initialMapViewState (Except.error e)).locations = [] ∧
    (fetchLogsRun initialLogsViewState (Except.error e)).logs = [] :=
  ⟨rfl, rfl, rfl, rfl, rfl, rfl, rfl, rfl, rfl⟩

/-- C9: the claim says every label/color lookup falls back to the raw enum
token on an out-of-set value; but `getMarkerPreset` falls back to the fixed
red preset, not the raw token. -/
theorem getMarkerPreset_fallback_not_raw :
    getMarkerPreset "unknown_status" = "islands#redIcon" ∧
      getMarkerPreset "unknown_status" ≠ "unknown_status" := by decide

/-- C9 (amended): the marker-preset function maps `reported` to red,
`in_progress` to blue, `cleaned` to green and `rejected` to gray, and the two
badge-color functions map each in-set status and priority to its table entry;
every lookup is total, the label functions (status, trash type, priority)
return the raw enum token on an out-of-set value while the marker-preset and
badge-color functions fall back to a fixed default (red preset, gray badge
classes); and the fallback is unreachable for inputs drawn from the closed
enums (each in-set label differs from its raw token, and each in-set color is
the listed table entry). -/
theorem lookup_tables_spec (s ty p : String) (hs : s ∉ statusValues)
    (hty : ty ∉ trashTypeValues) (hp : p ∉ priorityValues) :
    (getMarkerPreset "reported" = "islands#redIcon" ∧
     getMarkerPreset "in_progress" = "islands#blueIcon" ∧
     getMarkerPreset "cleaned" = "islands#greenIcon" ∧
     getMarkerPreset "rejected" = "islands#grayIcon") ∧
    (getStatusBadgeColor "reported" = "bg-red-100 text-red-800" ∧
     getStatusBadgeColor "in_progress" = "bg-blue-100 text-blue-800" ∧
     getStatusBadgeColor "cleaned" = "bg-green-100 text-green-800" ∧
     getStatusBadgeColor "rejected" = "bg-gray-100 text-gray-800" ∧
     getPriorityBadgeColor "high" = "bg-red-100 text-red-800" ∧
     getPriorityBadgeColor "medium" = "bg-yellow-100 text-yellow-800" ∧
     getPriorityBadgeColor "low" = "bg-green-100 text-green-800") ∧
    (getMarkerPreset s = "islands#redIcon" ∧ getStatusLabel s = s ∧
     getStatusBadgeColor s = "bg-gray-100 text-gray-800" ∧
     getPriorityBadgeColor p = "bg-gray-100 text-gray-800" ∧
     getTrashTypeLabel ty = ty ∧ getPriorityLabel p = p) ∧
    (∀ c ∈ statusValues, getStatusLabel c ≠ c) ∧
    (∀ c ∈ trashTypeValues, getTrashTypeLabel c ≠ c) ∧
    (∀ c ∈ priorityValues, getPriorityLabel c ≠ c) := by
  have hs' : s ≠ "reported" ∧ s ≠ "in_progress" ∧ s ≠ "cleaned" ∧
      s ≠ "rejected" := by simpa [statusValues] using hs
  have hty' : ty ≠ "plastic" ∧ ty ≠ "metal" ∧ ty ≠ "glass" ∧ ty ≠ "organic" ∧
      ty ≠ "electronic" ∧ ty ≠ "mixed" ∧ ty ≠ "other" := by
    simpa [trashTypeValues] using hty
  have hp' : p ≠ "low" ∧ p ≠ "medium" ∧ p ≠ "high" := by
    simpa [priorityValues] using hp
  obtain ⟨h1, h2, h3, h4⟩ := hs'
  obtain ⟨g1, g2, g3, g4, g5, g6, g7⟩ := hty'
  obtain ⟨k1, k2, k3⟩ := hp'
  refine ⟨by decide, by decide, ⟨?_, ?_, ?_, ?_, ?_, ?_⟩, by decide,
      by decide, by decide⟩ <;>
    simp [getMarkerPreset, getStatusLabel, getStatusBadgeColor,
      getPriorityBadgeColor, getTrashTypeLabel, getPriorityLabel, h1, h2, h3,
      h4, g1, g2, g3, g4, g5, g6, g7, k1, k2, k3]

/-- Witness for `lookup_tables_spec` at the out-of-enum token `bogus`. -/
theorem lookup_tables_spec_witness :
    getMarkerPreset "bogus" = "islands#redIcon" ∧
      getStatusLabel "bogus" = "bogus" :=
  ⟨(lookup_tables_spec "bogus" "bogus" "bogus" (by decide) (by decide)
      (by decide)).2.2.1.1,
   (lookup_tables_spec "bogus" "bogus" "bogus" (by decide) (by decide)
      (by decide)).2.2.1.2.1⟩

/-- C10: with the empty search query the derived display subset equals the
full in-memory set for both views — every row, including one whose optional
phone or entity type is null, matches through a non-optional field, and the
filter is total on such rows. -/
theorem empty_query_filter_identity (users : List ProjectUser)
    (logs : List SystemLog) :
    filteredUsers "" users = users ∧ filteredLogs "" logs = logs := by
  constructor
  · rw [filteredUsers, List.filter_eq_self]
    intro u hu
    rw [userMatches_iff]
    exact Or.inl (ciIncludes_empty_needle _)
  · rw [filteredLogs, List.filter_eq_self]
    intro l hl
    rw [logMatches_iff]
    exact Or.inl (ciIncludes_empty_needle _)
